import Mathlib

/-!
Verification of the content-pipeline core of the `content-flux` repository:
topic discovery/selection (`content_services.py`), content synthesis
(`generate_content`), dual-sink persistence (`storage_services.py`,
`plan_builders.py`) and the workflow orchestrator (`content_agent.py`).

Python strings are modelled as Lean `String`; Python string methods that the
code uses (`strip`, `lower`, `split`, `startswith`, slicing, `replace`) are
re-implemented below on `List Char`, restricted to ASCII where Python is
Unicode-aware (`str.isalnum`, `str.lower`); every character the pipeline
manipulates structurally is ASCII.  Machine integers do not occur.  The
external plan-execution service (`portia.run_plan`) is modelled by passing its
outcome — an exception or an opaque `ExecResult` — as an explicit argument;
Python exceptions are modelled with `Except String`.
-/

namespace ContentFlux

/-- Python `str.strip()` whitespace set (ASCII part). -/
def pyWhitespace (c : Char) : Bool :=
  c = ' ' || c = '\t' || c = '\n' || c = '\r' || c = '\x0b' || c = '\x0c'

/-- Python `s.strip()`: drop leading and trailing whitespace. -/
def pyStrip (s : String) : String :=
  String.mk (((s.toList.dropWhile pyWhitespace).reverse.dropWhile pyWhitespace).reverse)

/-- Python `s[:n]`: the first `n` characters. -/
def pyTake (n : Nat) (s : String) : String :=
  String.mk (s.toList.take n)

/-- The ASCII uppercase letters. -/
def asciiUppercase : List Char :=
  ['A', 'B', 'C', 'D', 'E', 'F', 'G', 'H', 'I', 'J', 'K', 'L', 'M',
   'N', 'O', 'P', 'Q', 'R', 'S', 'T', 'U', 'V', 'W', 'X', 'Y', 'Z']

/-- Python `str.lower` on one character, ASCII range (the repository only
lower-cases topic strings). -/
def pyCharLower (c : Char) : Char :=
  if c ∈ asciiUppercase then Char.ofNat (c.toNat + 32) else c

/-- Python `s.lower()` (ASCII model). -/
def pyLower (s : String) : String :=
  String.mk (s.toList.map pyCharLower)

/-- Python `s.replace(' ', '')`: remove every space character. -/
def pyRemoveSpaces (s : String) : String :=
  String.mk (s.toList.filter (fun c => c ≠ ' '))

/-- Python `s.split(sep, 1)[-1]`: everything after the first occurrence of
`c`, or `s` itself when `c` does not occur. -/
def afterFirst (c : Char) (s : String) : String :=
  match s.toList.dropWhile (fun x => x ≠ c) with
  | [] => s
  | _ :: rest => String.mk rest

/-- Python `s.split(sep, 1)[0]`: everything before the first occurrence of
`c` (the whole of `s` when `c` does not occur). -/
def beforeFirst (c : Char) (s : String) : String :=
  String.mk (s.toList.takeWhile (fun x => x ≠ c))

/-- Python `s.strip(chars)`: drop leading and trailing characters that belong
to `cs`. -/
def stripCharsBoth (cs : List Char) (s : String) : String :=
  String.mk (((s.toList.dropWhile (fun c => cs.contains c)).reverse.dropWhile
    (fun c => cs.contains c)).reverse)

/-- `Python s.split('\n')` helper on character lists (accumulator holds the
current field reversed). -/
def splitCharAux (c : Char) : List Char → List Char → List (List Char)
  | [], acc => [acc.reverse]
  | x :: xs, acc =>
    if x = c then acc.reverse :: splitCharAux c xs []
    else splitCharAux c xs (x :: acc)

/-- Python `s.split('\n')`. -/
def splitLines (s : String) : List String :=
  (splitCharAux '\n' s.toList []).map String.mk

/-!
## Execution-result model

`portia.run_plan` returns an opaque object.  All four extraction sites probe
it identically: `result.outputs` (attribute present and truthy),
`outputs.final_output` (present and truthy, then `.value` is read),
`outputs.steps` (present and non-empty, then the last step's `output` is used
when present and truthy).  An attribute that is absent behaves exactly like a
falsy one at every probe, so each probe is one `Option`/list:

* `final_output = some v`: the wrapper object is present and truthy and wraps
  the string `v` (which may itself be empty — the code never checks `v`);
* `steps`: the per-step records, `[]` for absent or empty;
* a step's `output = some s`: the attribute is present holding `s`; the code
  additionally requires `s` to be truthy, i.e. non-empty;
* `strForm` is Python `str(result)` and `truthy` is Python `bool(result)`.
-/

structure StepRecord where
  output : Option String
deriving DecidableEq, Repr

structure OutputsRecord where
  final_output : Option String
  steps : List StepRecord
deriving DecidableEq, Repr

structure ExecResult where
  outputs : Option OutputsRecord
  strForm : String
  truthy : Bool
deriving DecidableEq, Repr

/-- The probe of `result.outputs` shared by all extraction sites
(`content_services.py` lines 25-32 and 84-91 and 109-116,
`storage_services.py` lines 68-75). -/
def extractFromOutputs (o : OutputsRecord) : Option String :=
  match o.final_output with
  | some v => some v
  | none =>
    match o.steps.getLast? with
    | some st =>
      match st.output with
      | some s => if s ≠ "" then some s else none
      | none => none
    | none => none

/-- The whole extraction step: probe `outputs`, then fall back to
`str(result) if result else dflt`.  The default `dflt` is `""` at the
discovery and generation sites, `"No research data available"` at the
research site of `generate_content`, and `"Page creation attempted"` at the
Notion site. -/
def extractWith (dflt : String) (r : ExecResult) : String :=
  match r.outputs with
  | some o =>
    match extractFromOutputs o with
    | some t => t
    | none => if r.truthy then r.strForm else dflt
  | none => if r.truthy then r.strForm else dflt

/-!
## Topic discovery (`content_services.py`)
-/

/-- The numbered-item markers of `_extract_topics_from_text`
(`content_services.py` line 50): Python `range(1, 20)`, i.e. 1 through 19. -/
def numeralsUpTo19 : List String :=
  ["1", "2", "3", "4", "5", "6", "7", "8", "9", "10",
   "11", "12", "13", "14", "15", "16", "17", "18", "19"]

/-- The numerals 1 through 10 (used for the spec-claimed marker range and by
the inline parser of `content_agent.py` line 245, Python `range(1, 11)`). -/
def numeralsUpTo10 : List String :=
  ["1", "2", "3", "4", "5", "6", "7", "8", "9", "10"]

/-- `any(line.startswith(f"{i}.") or line.startswith(f"{i})") for i in ...)`. -/
def startsWithNumbered (numerals : List String) (line : String) : Bool :=
  numerals.any (fun n =>
    (n ++ ".").toList.isPrefixOf line.toList || (n ++ ")").toList.isPrefixOf line.toList)

/-- The punctuation set of `topic.strip(' ,.;:-')` (`content_services.py`
line 56). -/
def punctChars : List Char := [' ', ',', '.', ';', ':', '-']

/-- The candidate-cleaning transform of `_extract_topics_from_text` applied to
one (already stripped) qualifying line (`content_services.py` lines 52-56):
`line.split('.', 1)[-1].split(')', 1)[-1].strip()`, then truncation at the
first `':'` when one is present, then `strip(' ,.;:-')`. -/
def cleanTopicOfLine (line : String) : String :=
  let t1 := pyStrip (afterFirst ')' (afterFirst '.' line))
  let t2 := if t1.toList.contains ':' then pyStrip (beforeFirst ':' t1) else t1
  stripCharsBoth punctChars t2

/-- One iteration of the `_extract_topics_from_text` loop
(`content_services.py` lines 47-58): the candidate contributed by one raw
line, if any. -/
def parseTopicLine (rawLine : String) : Option String :=
  let line := pyStrip rawLine
  if line ≠ "" ∧ startsWithNumbered numeralsUpTo19 line then
    let topic := cleanTopicOfLine line
    if 3 < topic.length ∧ topic.length ≤ 80 then some topic else none
  else none

/-- The candidate list collected by the loop of `_extract_topics_from_text`. -/
def topicCandidates (text : String) : List String :=
  (splitLines text).filterMap parseTopicLine

/-- The hard-coded fallback topics (`content_services.py` lines 41 and 62). -/
def fallbackTopics : List String :=
  ["AI Technology", "Machine Learning", "Quantum Computing"]

/-- `_extract_topics_from_text` (`content_services.py` lines 44-65): parse the
numbered list; on no candidates return the fallback list, otherwise the first
ten candidates. -/
def extractTopicsFromText (text : String) : List String :=
  let topics := topicCandidates text
  if topics = [] then fallbackTopics else topics.take 10

/-- `research_trending_topics` (`content_services.py` lines 11-41) for a
non-None execution service: run the discovery plan (its outcome — exception or
result — is the argument), extract with default `""`, parse; any exception
inside the `try` yields the fallback list. -/
def researchTrendingTopics (runOutcome : Except String ExecResult) : List String :=
  match runOutcome with
  | .error _ => fallbackTopics
  | .ok result => extractTopicsFromText (extractWith "" result)

/-!
## Content synthesis (`content_services.py`, `generate_content`)
-/

/-- The canonical content record: the eight fields of the `content_json`
dictionary built at `content_services.py` lines 127-136. -/
structure ContentRecord where
  title : String
  meta_description : String
  long_form_content : String
  twitter_thread : String
  linkedin_post : String
  instagram_caption : String
  keywords : List String
  tags : List String
deriving DecidableEq, Repr

/-- The `content_json` dictionary literal of `generate_content`
(`content_services.py` lines 127-136), given the topic and the extracted
generation text. -/
def contentRecordFor (topic content_text : String) : ContentRecord where
  title := topic ++ " - Comprehensive Guide"
  meta_description :=
    "Complete guide to " ++ topic ++ " with latest trends, insights and practical applications"
  long_form_content := content_text
  twitter_thread :=
    "THREAD about " ++ topic ++ ": Key insights and trends you need to know! "
      ++ pyTake 400 content_text ++ "..."
  linkedin_post :=
    "Insights on " ++ topic ++ ": " ++ pyTake 250 content_text
      ++ "... What are your thoughts? #technology #innovation"
  instagram_caption :=
    "Everything you need to know about " ++ topic
      ++ " 📚✨ #tech #learning #innovation #" ++ pyRemoveSpaces (pyLower topic)
  keywords := [topic, "technology", "trends", "innovation", "guide"]
  tags := [pyLower topic, "technology", "guide", "trends"]

/-- The required-field validation loop of `generate_content`
(`content_services.py` lines 139-142): every string field truthy, every list
field non-empty. -/
def validateRecord (r : ContentRecord) : Bool :=
  r.title ≠ "" && r.meta_description ≠ "" && r.long_form_content ≠ ""
    && r.twitter_thread ≠ "" && r.linkedin_post ≠ "" && r.instagram_caption ≠ ""
    && !r.keywords.isEmpty && !r.tags.isEmpty

/-- `generate_content` (`content_services.py` lines 68-153) for a non-None
execution service, with the two plan executions' results passed in.  The
research extraction falls back to `"No research data available"` when the
result object is falsy (line 94); the generation extraction falls back to
`""` (line 119).  `.error` models the `RuntimeError`s the function raises
(which its outer `except` re-raises). -/
def generateContent (topic : String) (researchResult contentResult : ExecResult) :
    Except String ContentRecord :=
  let research_data := extractWith "No research data available" researchResult
  if research_data = "" ∨ (pyStrip research_data).length < 10 then
    .error "Research returned insufficient data"
  else
    let content_text := extractWith "" contentResult
    if content_text = "" ∨ (pyStrip content_text).length < 20 then
      .error "Content generation returned insufficient data"
    else
      let record := contentRecordFor topic content_text
      if validateRecord record then .ok record
      else .error "Missing or empty required field"

/-!
## Topic selection and the orchestrator (`content_agent.py`)

`research_trending_topics` always returns a `List String`, so in
`run_content_creation_workflow` only the list branch of the selection code
(lines 226-236) is reachable; the string-parsing branch (lines 238-260) is
dead in the typed embedding.  `random.choice` is modelled by an explicit
index `pick` reduced modulo the candidate count.
-/

/-- Topic selection from the research output list
(`content_agent.py` lines 226-268): the emptiness check, cleaning, random
choice, the length-≥-5 check, and the markdown cleanup
`topic.replace('*', '').replace('#', '').strip()`. -/
def selectTopicFromTrending (pick : Nat) (trending : List String) :
    Except String String :=
  if trending.isEmpty then
    .error "No trending topics found from research - research may have failed"
  else
    let clean := (trending.map pyStrip).filter (fun t => t ≠ "")
    let topic :=
      if 0 < clean.length then clean.getD (pick % clean.length) ""
      else pyStrip (trending.headD "")
    if topic = "" ∨ (pyStrip topic).length < 5 then
      .error "Could not extract valid topic from research results"
    else
      .ok (pyStrip (String.mk (topic.toList.filter (fun c => c ≠ '*' && c ≠ '#'))))

/-- One per-topic entry of the workflow's `results` list
(`content_agent.py` lines 303-310). -/
structure WorkflowEntry where
  topic : String
  content_data : ContentRecord
  notion_url : String
  local_files : String
  status : String
  created_at : String
deriving DecidableEq, Repr

/-- The dictionary returned by `run_content_creation_workflow`
(`content_agent.py` line 346). -/
structure WorkflowResult where
  results : List WorkflowEntry
  total_created : Nat
deriving DecidableEq, Repr

/-- `run_content_creation_workflow` (`content_agent.py` lines 205-350).
External effects are passed in as outcomes: `discoveryOutcome` is the
discovery plan execution, `rRes`/`cRes` the two `generate_content` stage
results, `notionOutcome` the `save_content_to_notion` call (exception or
returned string), `localOutcome` the `save_content_locally` call, and `now`
the `datetime.now().isoformat()` timestamp.  Sink exceptions are converted to
`"Failed: " ++ e` strings (lines 289-291 and 299-301); a `generate_content`
failure skips the topic (lines 315-318); an empty `results` list raises
(lines 320-321). -/
def runContentCreationWorkflow (portiaPresent : Bool) (specificTopic : Option String)
    (discoveryOutcome : Except String ExecResult) (pick : Nat)
    (rRes cRes : ExecResult) (notionAvailable : Bool)
    (notionOutcome localOutcome : Except String String) (now : String) :
    Except String WorkflowResult :=
  if !portiaPresent then
    .error "CRITICAL ERROR: Portia is not initialized."
  else
    let topicsE : Except String (List String) :=
      match specificTopic with
      | some t => .ok [t]
      | none =>
        let trending := researchTrendingTopics discoveryOutcome
        match selectTopicFromTrending pick trending with
        | .error e => .error e
        | .ok t => .ok [t]
    match topicsE with
    | .error e => .error e
    | .ok topics =>
      let results := (topics.take 1).filterMap (fun topic =>
        match generateContent topic rRes cRes with
        | .error _ => none
        | .ok content_data =>
          let notion_url :=
            if notionAvailable then
              match notionOutcome with
              | .ok u => u
              | .error e => "Failed: " ++ e
            else "Skipped - Notion not available"
          let local_files :=
            match localOutcome with
            | .ok f => f
            | .error e => "Failed: " ++ e
          some ⟨topic, content_data, notion_url, local_files,
                "ready_for_distribution", now⟩)
      if results = [] then .error "No content was successfully generated"
      else .ok ⟨results, results.length⟩

/-!
## Remote sink (`storage_services.py`, `save_content_to_notion`)

The `content_data` argument in the source is always the dict built by
`generate_content`, so the "invalid content data" guard (lines 45-47) is
unreachable in the typed embedding.  The plan execution outcome is the
`runOutcome` argument; the skipped branches return before the plan is built
or executed, which the theorems express as independence from `runOutcome`.
`.error` models an exception propagating out of the function.
-/

/-- `save_content_to_notion` (`storage_services.py` lines 40-84). -/
def saveContentToNotion (portiaPresent notionAvailable apiKeyPresent : Bool)
    (_record : ContentRecord) (_topic : String)
    (runOutcome : Except String ExecResult) : Except String String :=
  if !notionAvailable then
    .ok "Notion storage skipped - not available"
  else if !apiKeyPresent then
    .ok "Notion storage skipped - missing API key"
  else if !portiaPresent then
    .error "Portia is not available - cannot save to Notion"
  else
    match runOutcome with
    | .error e => .ok ("Notion storage failed: " ++ e)
    | .ok result =>
      .ok ("Notion page created: " ++ extractWith "Page creation attempted" result)

/-!
## Local sink (`storage_services.py`, `plan_builders.py`)

The two write tiers are compared through their artifact file sets: ordered
lists of `(path, content)` pairs.  For the delegated tier these are the
target path and literal content each plan step's prose instructs the file
writer to create (`create_file_save_plan`); for the fallback tier they are
the direct `open(...).write` calls of `_save_files_manually`.  Python
`json.dumps(·, indent=2, ensure_ascii=False)` is an external serializer; both
tiers call it on equal values, so it is abstracted as the parameters
`dumpsC` (the full record) and `dumpsS` (the SEO dict).
-/

/-- The SEO dictionary built identically at `plan_builders.py` lines 271-275
and `storage_services.py` lines 190-194. -/
structure SeoRecord where
  keywords : List String
  meta_description : String
  tags : List String
deriving DecidableEq, Repr

/-- `create_file_save_plan` (`plan_builders.py` lines 217-285): the ordered
`(path, content)` write instructions of the plan's steps, paired with the
`files_created` list the function returns alongside the plan. -/
def createFileSavePlanFiles (dumpsC : ContentRecord → String)
    (dumpsS : SeoRecord → String) (content : ContentRecord)
    (filename outputDir : String) : List (String × String) × List String :=
  let jsonPath := outputDir ++ "/" ++ filename ++ ".json"
  let steps0 := [(jsonPath, dumpsC content)]
  let files0 := [jsonPath]
  let sf1 :=
    if content.long_form_content ≠ "" then
      let p := outputDir ++ "/" ++ filename ++ "_article.md"
      (steps0 ++ [(p, "# " ++ content.title ++ "\n\n" ++ content.long_form_content)],
       files0 ++ [p])
    else (steps0, files0)
  let sf2 :=
    if content.twitter_thread ≠ "" then
      let p := outputDir ++ "/" ++ filename ++ "_twitter.txt"
      (sf1.1 ++ [(p, content.twitter_thread)], sf1.2 ++ [p])
    else sf1
  let sf3 :=
    if content.linkedin_post ≠ "" then
      let p := outputDir ++ "/" ++ filename ++ "_linkedin.txt"
      (sf2.1 ++ [(p, content.linkedin_post)], sf2.2 ++ [p])
    else sf2
  let sf4 :=
    if content.instagram_caption ≠ "" then
      let p := outputDir ++ "/" ++ filename ++ "_instagram.txt"
      (sf3.1 ++ [(p, content.instagram_caption)], sf3.2 ++ [p])
    else sf3
  let seoPath := outputDir ++ "/" ++ filename ++ "_seo.json"
  (sf4.1 ++ [(seoPath, dumpsS ⟨content.keywords, content.meta_description, content.tags⟩)],
   sf4.2 ++ [seoPath])

/-- `_save_files_manually` (`storage_services.py` lines 141-205): the ordered
`(path, content)` direct writes.  Note its own re-truncation of stems longer
than 100 characters to `content_{timestamp}` (lines 150-154), with `now` the
fresh `datetime.now().strftime(...)` value. -/
def saveFilesManuallyFiles (dumpsC : ContentRecord → String)
    (dumpsS : SeoRecord → String) (now : String) (content : ContentRecord)
    (filename0 outputDir : String) : List (String × String) :=
  let filename := if filename0.length > 100 then "content_" ++ now else filename0
  let acc0 := [(outputDir ++ "/" ++ filename ++ ".json", dumpsC content)]
  let acc1 :=
    if content.long_form_content ≠ "" then
      acc0 ++ [(outputDir ++ "/" ++ filename ++ "_article.md",
        "# " ++ content.title ++ "\n\n" ++ content.long_form_content)]
    else acc0
  let acc2 :=
    if content.twitter_thread ≠ "" then
      acc1 ++ [(outputDir ++ "/" ++ filename ++ "_twitter.txt", content.twitter_thread)]
    else acc1
  let acc3 :=
    if content.linkedin_post ≠ "" then
      acc2 ++ [(outputDir ++ "/" ++ filename ++ "_linkedin.txt", content.linkedin_post)]
    else acc2
  let acc4 :=
    if content.instagram_caption ≠ "" then
      acc3 ++ [(outputDir ++ "/" ++ filename ++ "_instagram.txt", content.instagram_caption)]
    else acc3
  acc4 ++ [(outputDir ++ "/" ++ filename ++ "_seo.json",
    dumpsS ⟨content.keywords, content.meta_description, content.tags⟩)]

/-!
## Filename stem derivation (`storage_services.py`, `save_content_locally`)
-/

/-- The `safe_topic` computation of `save_content_locally`
(`storage_services.py` lines 92-98): keep alphanumeric / space / hyphen /
underscore characters, `rstrip()`, replace spaces by underscores, lower-case,
then truncate to 50 characters with `rstrip('_')`.  Python `str.isalnum` and
`str.lower` are Unicode-aware; the ASCII model is used. -/
def safeTopicOf (topic : String) : String :=
  let s1 := topic.toList.filter (fun c => c.isAlphanum || c = ' ' || c = '-' || c = '_')
  let s2 := (s1.reverse.dropWhile pyWhitespace).reverse
  let s3 := s2.map (fun c => if c = ' ' then '_' else c)
  let s4 := s3.map pyCharLower
  let s5 := if s4.length > 50 then ((s4.take 50).reverse.dropWhile (fun c => c = '_')).reverse
            else s4
  String.mk s5

/-- The filename stem of `save_content_locally` (`storage_services.py` lines
100-104): `f"{safe_topic}_{timestamp}"`, re-truncated to the timestamp-based
fallback when longer than 100 characters.  `ts` is the
`datetime.now().strftime("%Y%m%d_%H%M%S")` value. -/
def localFileStem (topic ts : String) : String :=
  let filename := safeTopicOf topic ++ "_" ++ ts
  if filename.length > 100 then "content_" ++ ts else filename

/-!
## Helper lemmas
-/

lemma mem_of_mem_dropWhile {α : Type} {p : α → Bool} {l : List α} {a : α}
    (h : a ∈ l.dropWhile p) : a ∈ l :=
  List.Sublist.mem h (List.dropWhile_sublist p)

lemma mem_of_mem_take {α : Type} {n : Nat} {l : List α} {a : α}
    (h : a ∈ l.take n) : a ∈ l :=
  List.Sublist.mem h (List.take_sublist n l)

lemma append_ne_empty_right (s t : String) (h : t ≠ "") : s ++ t ≠ "" := by
  intro hc
  apply h
  have hd := congrArg String.data hc
  rw [String.data_append] at hd
  exact String.ext (List.append_eq_nil.mp hd).2

lemma append_ne_empty_left (s t : String) (h : s ≠ "") : s ++ t ≠ "" := by
  intro hc
  apply h
  have hd := congrArg String.data hc
  rw [String.data_append] at hd
  exact String.ext (List.append_eq_nil.mp hd).1

lemma ne_empty_of_pyStrip_long {s : String} (h : 0 < (pyStrip s).length) : s ≠ "" := by
  intro hc
  subst hc
  simp [pyStrip] at h

/-- The eight fields of the `content_json` dictionary are non-empty whenever
the generation text is. -/
lemma contentRecordFor_fields (topic ct : String) (h : ct ≠ "") :
    (contentRecordFor topic ct).title ≠ ""
    ∧ (contentRecordFor topic ct).meta_description ≠ ""
    ∧ (contentRecordFor topic ct).long_form_content ≠ ""
    ∧ (contentRecordFor topic ct).twitter_thread ≠ ""
    ∧ (contentRecordFor topic ct).linkedin_post ≠ ""
    ∧ (contentRecordFor topic ct).instagram_caption ≠ ""
    ∧ (contentRecordFor topic ct).keywords ≠ []
    ∧ (contentRecordFor topic ct).tags ≠ [] := by
  unfold contentRecordFor
  refine ⟨?_, ?_, h, ?_, ?_, ?_, by simp, by simp⟩
  · exact append_ne_empty_right _ _ (by decide)
  · exact append_ne_empty_right _ _ (by decide)
  · exact append_ne_empty_right _ _ (by decide)
  · exact append_ne_empty_right _ _ (by decide)
  · exact append_ne_empty_left _ _ (append_ne_empty_right _ _ (by decide))

lemma validateRecord_contentRecordFor (topic ct : String) (h : ct ≠ "") :
    validateRecord (contentRecordFor topic ct) = true := by
  obtain ⟨h1, h2, h3, h4, h5, h6, h7, h8⟩ := contentRecordFor_fields topic ct h
  unfold validateRecord
  simp only [Bool.and_eq_true, decide_eq_true_eq, Bool.not_eq_true',
    List.isEmpty_eq_false]
  exact ⟨⟨⟨⟨⟨⟨⟨h1, h2⟩, h3⟩, h4⟩, h5⟩, h6⟩, h7⟩, h8⟩

lemma research_guard_false {r : ExecResult}
    (h : 10 ≤ (pyStrip (extractWith "No research data available" r)).length) :
    ¬(extractWith "No research data available" r = ""
      ∨ (pyStrip (extractWith "No research data available" r)).length < 10) := by
  rintro (hc | hc)
  · rw [hc] at h; simp [pyStrip] at h
  · omega

lemma content_guard_false {c : ExecResult}
    (h : 20 ≤ (pyStrip (extractWith "" c)).length) :
    ¬(extractWith "" c = "" ∨ (pyStrip (extractWith "" c)).length < 20) := by
  rintro (hc | hc)
  · rw [hc] at h; simp [pyStrip] at h
  · omega

/-- When both stage texts are long enough, `generate_content` returns exactly
the templated record around the generation text. -/
lemma generateContent_ok_of (topic : String) (r c : ExecResult)
    (hr : 10 ≤ (pyStrip (extractWith "No research data available" r)).length)
    (hc : 20 ≤ (pyStrip (extractWith "" c)).length) :
    generateContent topic r c = .ok (contentRecordFor topic (extractWith "" c)) := by
  have hcne : extractWith "" c ≠ "" := ne_empty_of_pyStrip_long (by omega)
  unfold generateContent
  rw [if_neg (research_guard_false hr), if_neg (content_guard_false hc),
    if_pos (validateRecord_contentRecordFor topic _ hcne)]

/-- Whenever `generate_content` succeeds, the record is the template around
the extracted generation text. -/
lemma generateContent_ok_elim {topic : String} {r c : ExecResult} {rec : ContentRecord}
    (h : generateContent topic r c = .ok rec) :
    rec = contentRecordFor topic (extractWith "" c) := by
  unfold generateContent at h
  simp only [] at h
  split_ifs at h
  exact (Except.ok.injEq _ _ ▸ h).symm

/-!
## Claim theorems
-/

/-- Claim C1: for every topic and every pair of stage results whose extracted
research text has stripped length at least 10 and whose extracted generation
text has stripped length at least 20, `generate_content` returns a record
with all eight fields non-empty whose `long_form_content` is the generation
text verbatim. -/
theorem generateContent_all_fields_of_sufficient (topic : String)
    (rRes cRes : ExecResult)
    (hr : 10 ≤ (pyStrip (extractWith "No research data available" rRes)).length)
    (hc : 20 ≤ (pyStrip (extractWith "" cRes)).length) :
    ∃ rec : ContentRecord, generateContent topic rRes cRes = .ok rec
      ∧ rec.long_form_content = extractWith "" cRes
      ∧ rec.title ≠ "" ∧ rec.meta_description ≠ "" ∧ rec.long_form_content ≠ ""
      ∧ rec.twitter_thread ≠ "" ∧ rec.linkedin_post ≠ "" ∧ rec.instagram_caption ≠ ""
      ∧ rec.keywords ≠ [] ∧ rec.tags ≠ [] := by
  have hcne : extractWith "" cRes ≠ "" := ne_empty_of_pyStrip_long (by omega)
  obtain ⟨h1, h2, h3, h4, h5, h6, h7, h8⟩ :=
    contentRecordFor_fields topic (extractWith "" cRes) hcne
  exact ⟨contentRecordFor topic (extractWith "" cRes),
    generateContent_ok_of topic rRes cRes hr hc, rfl, h1, h2, h3, h4, h5, h6, h7, h8⟩

/-- Witness for C1: a concrete topic, a 10-character research text and a
20-character generation text. -/
theorem generateContent_all_fields_witness :
    ∃ rec : ContentRecord,
      generateContent "AI" ⟨some ⟨some "0123456789", []⟩, "", true⟩
          ⟨some ⟨some "01234567890123456789", []⟩, "", true⟩ = .ok rec
      ∧ rec.long_form_content =
          extractWith "" ⟨some ⟨some "01234567890123456789", []⟩, "", true⟩
      ∧ rec.title ≠ "" ∧ rec.meta_description ≠ "" ∧ rec.long_form_content ≠ ""
      ∧ rec.twitter_thread ≠ "" ∧ rec.linkedin_post ≠ "" ∧ rec.instagram_caption ≠ ""
      ∧ rec.keywords ≠ [] ∧ rec.tags ≠ [] :=
  generateContent_all_fields_of_sufficient "AI"
    ⟨some ⟨some "0123456789", []⟩, "", true⟩
    ⟨some ⟨some "01234567890123456789", []⟩, "", true⟩ (by decide) (by decide)

/-- Claim C2, counterexample: an execution result that exposes only a
non-empty step list (no final output), whose last step's output is the empty
string.  The claim says extraction returns the last step's output (`""`);
the code falls through to the generic textual form `str(result)` instead. -/
theorem extract_last_step_empty_cex :
    extractWith "" ⟨some ⟨none, [⟨some ""⟩]⟩, "GENERIC", true⟩ = "GENERIC"
    ∧ "GENERIC" ≠ "" :=
  ⟨rfl, by decide⟩

/-- Claim C2 as amended: extraction precedence of the result-extraction step.
A truthy final output wins; otherwise a non-empty last step output wins;
otherwise (including a last step output that is absent or empty) the generic
textual form `str(result)` is used when the result is truthy and the empty
string when it is not.  The function is total, so it never raises. -/
theorem extractWith_precedence (r : ExecResult) :
    (∀ o v, r.outputs = some o → o.final_output = some v → extractWith "" r = v)
    ∧ (∀ o s, r.outputs = some o → o.final_output = none →
        Option.bind o.steps.getLast? StepRecord.output = some s → s ≠ "" →
        extractWith "" r = s)
    ∧ (∀ o, r.outputs = some o → o.final_output = none →
        (Option.bind o.steps.getLast? StepRecord.output = none ∨
          Option.bind o.steps.getLast? StepRecord.output = some "") →
        extractWith "" r = if r.truthy then r.strForm else "")
    ∧ (r.outputs = none → extractWith "" r = if r.truthy then r.strForm else "") := by
  refine ⟨?_, ?_, ?_, ?_⟩
  · rintro o v ho hf
    simp [extractWith, ho, extractFromOutputs, hf]
  · rintro o s ho hf hb hs
    rcases hl : o.steps.getLast? with _ | st
    · rw [hl] at hb; simp at hb
    · rw [hl] at hb
      simp only [Option.some_bind] at hb
      simp [extractWith, ho, extractFromOutputs, hf, hl, hb, hs]
  · rintro o ho hf hb
    rcases hl : o.steps.getLast? with _ | st
    · simp [extractWith, ho, extractFromOutputs, hf, hl]
    · rw [hl] at hb
      simp only [Option.some_bind] at hb
      rcases hb with hb | hb <;> simp [extractWith, ho, extractFromOutputs, hf, hl, hb]
  · rintro ho
    simp [extractWith, ho]

/-- Witness for C2 (amended): a result with a truthy final output. -/
theorem extractWith_precedence_witness :
    extractWith "" ⟨some ⟨some "FINAL", []⟩, "S", true⟩ = "FINAL" :=
  (extractWith_precedence ⟨some ⟨some "FINAL", []⟩, "S", true⟩).1 ⟨some "FINAL", []⟩
    "FINAL" rfl rfl

/-- Claim C5, counterexample: a research execution result that exposes
nothing and is falsy.  Under the extraction precedence the extracted text is
`""` (length 0 < 10), so the claim demands `InsufficientResearchError`; but
`generate_content` substitutes the 25-character default
`"No research data available"` at this site and succeeds. -/
theorem falsyResearch_no_error_cex :
    extractWith "" (⟨none, "", false⟩ : ExecResult) = ""
    ∧ ∃ rec : ContentRecord,
        generateContent "AI" ⟨none, "", false⟩
          ⟨some ⟨some "01234567890123456789", []⟩, "", true⟩ = .ok rec :=
  ⟨rfl, ⟨_, rfl⟩⟩

/-- Claim C5 as amended: `generate_content` fails with the research error
exactly when the research text actually extracted — which falls back to
`"No research data available"` when the result exposes nothing and is falsy —
has stripped length under 10, and with the content error when the research
text is long enough but the generation text (empty-string fallback) has
stripped length under 20.  In both cases no record is returned. -/
theorem generateContent_error_conditions (topic : String) (rRes cRes : ExecResult) :
    ((pyStrip (extractWith "No research data available" rRes)).length < 10 →
      generateContent topic rRes cRes = .error "Research returned insufficient data")
    ∧ (10 ≤ (pyStrip (extractWith "No research data available" rRes)).length →
        (pyStrip (extractWith "" cRes)).length < 20 →
        generateContent topic rRes cRes =
          .error "Content generation returned insufficient data") := by
  constructor
  · intro h
    unfold generateContent
    rw [if_pos (Or.inr h)]
  · intro h1 h2
    unfold generateContent
    rw [if_neg (research_guard_false h1), if_pos (Or.inr h2)]

/-- Witness for C5 (amended): a 3-character research text triggers the
research error; with a 10-character research text, a 5-character generation
text triggers the content error. -/
theorem generateContent_error_conditions_witness :
    generateContent "AI" ⟨some ⟨some "abc", []⟩, "", true⟩ ⟨none, "", false⟩
        = .error "Research returned insufficient data"
    ∧ generateContent "AI" ⟨some ⟨some "0123456789", []⟩, "", true⟩
        ⟨some ⟨some "short", []⟩, "", true⟩
        = .error "Content generation returned insufficient data" :=
  ⟨(generateContent_error_conditions "AI" ⟨some ⟨some "abc", []⟩, "", true⟩
      ⟨none, "", false⟩).1 (by decide),
   (generateContent_error_conditions "AI" ⟨some ⟨some "0123456789", []⟩, "", true⟩
      ⟨some ⟨some "short", []⟩, "", true⟩).2 (by decide) (by decide)⟩

/-- Claim C7, counterexample: when the Notion integration is available and
configured but the execution service handle is `None`,
`save_content_to_notion` raises a `RuntimeError` (`storage_services.py`
lines 57-58) instead of returning an outcome — contradicting "never
propagates an exception to its caller". -/
theorem saveToNotion_portia_none_cex :
    saveContentToNotion false true true (contentRecordFor "T" "body") "T"
      (.ok ⟨some ⟨some "page", []⟩, "", true⟩)
      = .error "Portia is not available - cannot save to Notion" := rfl

/-- Claim C7 as amended: for every record, topic and plan-execution outcome,
`save_content_to_notion` returns a "skipped" outcome (independently of the
execution outcome, hence without executing the plan) when the integration is
unavailable or unconfigured; with the execution service present it returns a
success outcome wrapping the extracted result text when execution succeeds,
converts an execution exception into a failure outcome carrying the message,
and never propagates an exception; only a `None` execution service makes it
raise. -/
theorem saveToNotion_outcomes (rec : ContentRecord) (topic : String)
    (ro : Except String ExecResult) :
    (∀ p k, saveContentToNotion p false k rec topic ro
        = .ok "Notion storage skipped - not available")
    ∧ (∀ p, saveContentToNotion p true false rec topic ro
        = .ok "Notion storage skipped - missing API key")
    ∧ (∀ e, ro = .error e → saveContentToNotion true true true rec topic ro
        = .ok ("Notion storage failed: " ++ e))
    ∧ (∀ r, ro = .ok r → saveContentToNotion true true true rec topic ro
        = .ok ("Notion page created: " ++ extractWith "Page creation attempted" r))
    ∧ (∃ s, saveContentToNotion true true true rec topic ro = .ok s) := by
  refine ⟨fun p k => rfl, fun p => rfl, ?_, ?_, ?_⟩
  · rintro e rfl; rfl
  · rintro r rfl; rfl
  · rcases ro with e | r
    · exact ⟨_, rfl⟩
    · exact ⟨_, rfl⟩

/-- Witness for C7 (amended): a failing page-creation call is converted into
a failure outcome. -/
theorem saveToNotion_outcomes_witness :
    saveContentToNotion true true true (contentRecordFor "T" "body") "T" (.error "boom")
      = .ok ("Notion storage failed: " ++ "boom") :=
  (saveToNotion_outcomes (contentRecordFor "T" "body") "T" (.error "boom")).2.2.1
    "boom" rfl

/-- A line contributes a candidate only with the 1-19 marker, the candidate
is the cleaned text, and its length lies in (3, 80]. -/
lemma parseTopicLine_some {line s : String} (h : parseTopicLine line = some s) :
    pyStrip line ≠ "" ∧ startsWithNumbered numeralsUpTo19 (pyStrip line) = true
    ∧ s = cleanTopicOfLine (pyStrip line) ∧ 3 < s.length ∧ s.length ≤ 80 := by
  unfold parseTopicLine at h
  simp only [] at h
  split_ifs at h with h1 h2
  injection h with h
  exact ⟨h1.1, h1.2, h.symm, h ▸ h2.1, h ▸ h2.2⟩

/-- Conversely, a stripped line with a 1-19 marker whose cleaned text has
length in (3, 80] contributes exactly that candidate. -/
lemma parseTopicLine_pos {line : String} (h1 : pyStrip line ≠ "")
    (h2 : startsWithNumbered numeralsUpTo19 (pyStrip line) = true)
    (h3 : 3 < (cleanTopicOfLine (pyStrip line)).length)
    (h4 : (cleanTopicOfLine (pyStrip line)).length ≤ 80) :
    parseTopicLine line = some (cleanTopicOfLine (pyStrip line)) := by
  unfold parseTopicLine
  rw [if_pos ⟨h1, h2⟩, if_pos ⟨h3, h4⟩]

/-- Claim C3, counterexample.  First: the line `"11. Quantum Computers
Rising"` does not begin with a 1-10 marker, yet it contributes a candidate —
the code accepts markers 1-19 (`range(1, 20)`), not 1-10.  Second: for
`"1. AI (ML) Topic Overview"` the candidate is not the text after the marker
(`"AI (ML) Topic Overview"`) but `"Topic Overview"` — the code also discards
everything up to the first `')'` of the remainder. -/
theorem topicCandidates_marker_cex :
    topicCandidates "11. Quantum Computers Rising" = ["Quantum Computers Rising"]
    ∧ startsWithNumbered numeralsUpTo10 (pyStrip "11. Quantum Computers Rising") = false
    ∧ topicCandidates "1. AI (ML) Topic Overview" = ["Topic Overview"]
    ∧ "Topic Overview" ≠ "AI (ML) Topic Overview" :=
  ⟨by decide, by decide, by decide, by decide⟩

/-- Claim C3 as amended: a line contributes a candidate exactly when (after
stripping) it is non-empty and begins with an integer literal 1 through 19
followed by `.` or `)`; the candidate is the remainder after the first `.`
(if any) and then the first `)` (if any), stripped, truncated at the first
`:` when present, and stripped of surrounding punctuation; it is kept only
when its length is in (3, 80].  On the input of the claim's example the
candidate set is exactly `["Topic A", "Topic B"]`. -/
theorem parseTopicLine_characterization (line : String) :
    (∀ s, parseTopicLine line = some s →
      pyStrip line ≠ "" ∧ startsWithNumbered numeralsUpTo19 (pyStrip line) = true
      ∧ s = cleanTopicOfLine (pyStrip line) ∧ 3 < s.length ∧ s.length ≤ 80)
    ∧ (pyStrip line ≠ "" → startsWithNumbered numeralsUpTo19 (pyStrip line) = true →
        3 < (cleanTopicOfLine (pyStrip line)).length →
        (cleanTopicOfLine (pyStrip line)).length ≤ 80 →
        parseTopicLine line = some (cleanTopicOfLine (pyStrip line)))
    ∧ topicCandidates "1. Topic A\n2. Topic B: extra\n3. x" = ["Topic A", "Topic B"] :=
  ⟨fun _ h => parseTopicLine_some h,
   fun h1 h2 h3 h4 => parseTopicLine_pos h1 h2 h3 h4,
   by decide⟩

/-- Witness for C3 (amended): the line `"1. Topic A"` qualifies and its
candidate is `"Topic A"`. -/
theorem parseTopicLine_characterization_witness :
    parseTopicLine "1. Topic A" = some (cleanTopicOfLine (pyStrip "1. Topic A")) :=
  (parseTopicLine_characterization "1. Topic A").2.1 (by decide) (by decide)
    (by decide) (by decide)

/-- Claim C4, counterexample: for the empty discovery output, topic
extraction returns the hard-coded fallback list (no `InsufficientDataError`
exists in the code), and the workflow's selection step then succeeds with
`"AI Technology"` — topic selection does not fail. -/
theorem emptyDiscovery_fallback_cex :
    extractTopicsFromText "" = fallbackTopics
    ∧ researchTrendingTopics (.ok ⟨none, "", false⟩) = fallbackTopics
    ∧ selectTopicFromTrending 0 (extractTopicsFromText "") = .ok "AI Technology" :=
  ⟨rfl, rfl, rfl⟩

/-- Selecting from the fallback list always succeeds with one of its
entries, whatever the random choice. -/
lemma selectTopic_fallback (pick : Nat) :
    ∃ t, t ∈ fallbackTopics ∧ selectTopicFromTrending pick fallbackTopics = .ok t := by
  have hclean : (fallbackTopics.map pyStrip).filter (fun t => t ≠ "") = fallbackTopics := by
    decide
  unfold selectTopicFromTrending
  rw [hclean]
  simp only []
  have hlt : pick % fallbackTopics.length < 3 := Nat.mod_lt _ (by decide)
  have h3 : pick % fallbackTopics.length = 0 ∨ pick % fallbackTopics.length = 1
      ∨ pick % fallbackTopics.length = 2 := by omega
  rcases h3 with h3 | h3 | h3 <;> rw [h3]
  · exact ⟨"AI Technology", by decide, by rfl⟩
  · exact ⟨"Machine Learning", by decide, by rfl⟩
  · exact ⟨"Quantum Computing", by decide, by rfl⟩

/-- Claim C4 as amended: a discovery output with no parseable numbered
candidates — the empty string in particular — does not make topic selection
fail; extraction substitutes the fixed fallback list and selection succeeds
with one of its entries, for every random choice. -/
theorem noCandidates_fallback_selection (text : String) (pick : Nat)
    (h : topicCandidates text = []) :
    extractTopicsFromText text = fallbackTopics
    ∧ ∃ t, t ∈ fallbackTopics
        ∧ selectTopicFromTrending pick (extractTopicsFromText text) = .ok t := by
  have he : extractTopicsFromText text = fallbackTopics := by
    unfold extractTopicsFromText
    rw [h]
    rfl
  rw [he]
  exact ⟨rfl, selectTopic_fallback pick⟩

/-- Witness for C4 (amended): the empty discovery output. -/
theorem noCandidates_fallback_selection_witness :
    extractTopicsFromText "" = fallbackTopics
    ∧ ∃ t, t ∈ fallbackTopics
        ∧ selectTopicFromTrending 0 (extractTopicsFromText "") = .ok t :=
  noCandidates_fallback_selection "" 0 (by decide)

/-- Claim C6: a run with an explicit topic whose content synthesis succeeds
returns `total_created = 1` with one recorded result whose
`content_data.long_form_content` is the extracted generation text, for every
remote-sink and local-sink outcome (including failures, which are recorded
as outcome descriptors inside the entry and never fail the run). -/
theorem runWorkflow_explicit_topic_success
    (topic now : String) (rRes cRes : ExecResult) (record : ContentRecord)
    (disc : Except String ExecResult) (pick : Nat) (notionAvailable : Bool)
    (notionOutcome localOutcome : Except String String)
    (hgen : generateContent topic rRes cRes = .ok record) :
    ∃ entry : WorkflowEntry,
      runContentCreationWorkflow true (some topic) disc pick rRes cRes
          notionAvailable notionOutcome localOutcome now = .ok ⟨[entry], 1⟩
      ∧ entry.topic = topic ∧ entry.content_data = record
      ∧ entry.content_data.long_form_content = extractWith "" cRes
      ∧ entry.status = "ready_for_distribution" := by
  refine ⟨⟨topic, record,
      (if notionAvailable then
        match notionOutcome with
        | .ok u => u
        | .error e => "Failed: " ++ e
      else "Skipped - Notion not available"),
      (match localOutcome with
        | .ok f => f
        | .error e => "Failed: " ++ e),
      "ready_for_distribution", now⟩, ?_, rfl, rfl, ?_, rfl⟩
  · unfold runContentCreationWorkflow
    simp only [Bool.not_true, Bool.false_eq_true, if_false, List.take,
      List.filterMap_cons, List.filterMap_nil, hgen]
    rw [if_neg (List.cons_ne_nil _ _)]
    rfl
  · have := generateContent_ok_elim hgen
    rw [this]
    rfl

/-- Witness for C6: explicit topic `"X"`, a 25-character generation text, and
both sinks failing — `total_created` is still 1 and the long-form content is
the generation text. -/
theorem runWorkflow_explicit_topic_success_witness :
    ∃ entry : WorkflowEntry,
      runContentCreationWorkflow true (some "X") (.error "e") 0
          ⟨none, "", false⟩ ⟨some ⟨some "0123456789012345678901234", []⟩, "", true⟩
          true (.error "boom") (.error "disk") "NOW" = .ok ⟨[entry], 1⟩
      ∧ entry.topic = "X"
      ∧ entry.content_data = contentRecordFor "X" "0123456789012345678901234"
      ∧ entry.content_data.long_form_content =
          extractWith "" ⟨some ⟨some "0123456789012345678901234", []⟩, "", true⟩
      ∧ entry.status = "ready_for_distribution" :=
  runWorkflow_explicit_topic_success "X" "NOW" ⟨none, "", false⟩
    ⟨some ⟨some "0123456789012345678901234", []⟩, "", true⟩
    (contentRecordFor "X" "0123456789012345678901234") (.error "e") 0 true
    (.error "boom") (.error "disk") rfl

/-- Claim C8, counterexample: for a 101-character filename stem the
direct-write fallback tier renames the files to `content_{timestamp}` while
the delegated-tool plan keeps the long stem, so the two artifact file sets
differ. -/
theorem fileSavePlan_long_stem_cex :
    (createFileSavePlanFiles (fun _ => "{}") (fun _ => "[]")
        (contentRecordFor "X" "body") (String.mk (List.replicate 101 'a')) "out").1
      ≠ saveFilesManuallyFiles (fun _ => "{}") (fun _ => "[]") "20250101_000000"
        (contentRecordFor "X" "body") (String.mk (List.replicate 101 'a')) "out" := by
  decide

/-- Claim C8 as amended: for every record, serializer, output directory and
filename stem of at most 100 characters, the delegated-tool plan's artifact
file set — paths and contents — is exactly the file set written by the
direct-write fallback tier, and the plan's returned path list is exactly the
paths of that file set. -/
theorem fileSavePlan_matches_manual (dumpsC : ContentRecord → String)
    (dumpsS : SeoRecord → String) (now : String) (content : ContentRecord)
    (filename outputDir : String) (h : filename.length ≤ 100) :
    (createFileSavePlanFiles dumpsC dumpsS content filename outputDir).1
      = saveFilesManuallyFiles dumpsC dumpsS now content filename outputDir
    ∧ (createFileSavePlanFiles dumpsC dumpsS content filename outputDir).2
      = ((createFileSavePlanFiles dumpsC dumpsS content filename outputDir).1).map
          Prod.fst := by
  have hf : ¬(filename.length > 100) := by omega
  unfold createFileSavePlanFiles saveFilesManuallyFiles
  rw [if_neg hf]
  constructor <;> (simp only []; split_ifs <;> simp)

/-- Witness for C8 (amended): a concrete record and short stem. -/
theorem fileSavePlan_matches_manual_witness :
    (createFileSavePlanFiles (fun _ => "{}") (fun _ => "[]")
        (contentRecordFor "X" "body") "stem" "out").1
      = saveFilesManuallyFiles (fun _ => "{}") (fun _ => "[]") "TS"
        (contentRecordFor "X" "body") "stem" "out" :=
  (fileSavePlan_matches_manual (fun _ => "{}") (fun _ => "[]") "TS"
    (contentRecordFor "X" "body") "stem" "out" (by decide)).1

/-- `_extract_topics_from_text` always yields a non-empty list of at most 10
non-empty topics. -/
lemma extractTopicsFromText_props (text : String) :
    extractTopicsFromText text ≠ []
    ∧ (extractTopicsFromText text).length ≤ 10
    ∧ ∀ t ∈ extractTopicsFromText text, t ≠ "" := by
  unfold extractTopicsFromText
  simp only []
  split_ifs with h
  · exact ⟨by decide, by decide, by decide⟩
  · refine ⟨?_, ?_, ?_⟩
    · intro hc
      rcases List.take_eq_nil_iff.mp hc with h10 | hnil
      · exact absurd h10 (by decide)
      · exact h hnil
    · rw [List.length_take]
      omega
    · intro t ht
      have ht' := mem_of_mem_take ht
      rw [topicCandidates, List.mem_filterMap] at ht'
      obtain ⟨line, _, hline⟩ := ht'
      have hlen := (parseTopicLine_some hline).2.2.2.1
      intro hc
      subst hc
      simp at hlen

/-- Claim C10: for every plan-execution outcome, `research_trending_topics`
is total and returns a non-empty list of at most 10 non-empty topics; an
exception, or an output with no parseable numbered candidates, yields the
fixed fallback list. -/
theorem researchTrendingTopics_total (runOutcome : Except String ExecResult) :
    researchTrendingTopics runOutcome ≠ []
    ∧ (researchTrendingTopics runOutcome).length ≤ 10
    ∧ (∀ t ∈ researchTrendingTopics runOutcome, t ≠ "")
    ∧ (∀ e, runOutcome = .error e → researchTrendingTopics runOutcome = fallbackTopics)
    ∧ (∀ r, runOutcome = .ok r → topicCandidates (extractWith "" r) = [] →
        researchTrendingTopics runOutcome = fallbackTopics) := by
  rcases runOutcome with e | r
  · exact ⟨(by decide : fallbackTopics ≠ []), (by decide : fallbackTopics.length ≤ 10),
      (by decide : ∀ t ∈ fallbackTopics, t ≠ ""), fun _ _ => rfl, fun r h => by simp at h⟩
  · obtain ⟨h1, h2, h3⟩ := extractTopicsFromText_props (extractWith "" r)
    refine ⟨h1, h2, h3, fun e h => by simp at h, fun r' hr' hcand => ?_⟩
    injection hr' with hr'
    subst hr'
    show (if topicCandidates (extractWith "" r) = [] then fallbackTopics
        else (topicCandidates (extractWith "" r)).take 10) = fallbackTopics
    rw [if_pos hcand]

/-- Witness for C10: a failing plan execution yields the fallback list. -/
theorem researchTrendingTopics_total_witness :
    researchTrendingTopics (.error "boom") = fallbackTopics :=
  (researchTrendingTopics_total (.error "boom")).2.2.2.1 "boom" rfl

lemma toList_mk (l : List Char) : (String.mk l).toList = l := rfl

lemma pyCharLower_notMem_upper (c : Char) : pyCharLower c ∉ asciiUppercase := by
  intro hc
  unfold pyCharLower at hc
  by_cases h : c ∈ asciiUppercase
  · rw [if_pos h] at hc
    fin_cases h <;> exact absurd hc (by decide)
  · rw [if_neg h] at hc
    exact h hc

lemma pyCharLower_allowed {c : Char} (h : c.isAlphanum = true ∨ c = '-' ∨ c = '_') :
    (pyCharLower c).isAlphanum = true ∨ pyCharLower c = '-' ∨ pyCharLower c = '_' := by
  unfold pyCharLower
  by_cases hu : c ∈ asciiUppercase
  · rw [if_pos hu]
    fin_cases hu <;> exact Or.inl (by decide)
  · rw [if_neg hu]
    exact h

lemma digit_notMem_upper {c : Char} (h : c.isDigit = true) : c ∉ asciiUppercase := by
  intro hc
  fin_cases hc <;> exact absurd h (by decide)

lemma alphanum_of_digit {c : Char} (h : c.isDigit = true) : c.isAlphanum = true := by
  unfold Char.isAlphanum
  rw [h, Bool.or_true]

lemma map_lower_repl_chars {l : List Char} {c : Char}
    (hl : ∀ e ∈ l, (e.isAlphanum || e = ' ' || e = '-' || e = '_') = true)
    (hc : c ∈ (l.map (fun c => if c = ' ' then '_' else c)).map pyCharLower) :
    (c.isAlphanum = true ∨ c = '-' ∨ c = '_') ∧ c ∉ asciiUppercase := by
  rw [List.mem_map] at hc
  obtain ⟨d, hd, rfl⟩ := hc
  rw [List.mem_map] at hd
  obtain ⟨e, he, rfl⟩ := hd
  have he2 := hl e he
  simp only [Bool.or_eq_true, decide_eq_true_eq] at he2
  by_cases hsp : e = ' '
  · subst hsp
    simp only [if_pos rfl]
    exact ⟨pyCharLower_allowed (Or.inr (Or.inr rfl)), pyCharLower_notMem_upper _⟩
  · rw [if_neg hsp]
    have hallow : e.isAlphanum = true ∨ e = '-' ∨ e = '_' := by
      rcases he2 with ((ha | hb) | hc') | hd'
      · exact Or.inl ha
      · exact absurd hb hsp
      · exact Or.inr (Or.inl hc')
      · exact Or.inr (Or.inr hd')
    exact ⟨pyCharLower_allowed hallow, pyCharLower_notMem_upper _⟩

lemma safeTopicOf_chars (topic : String) :
    ∀ c ∈ (safeTopicOf topic).toList,
      (c.isAlphanum = true ∨ c = '-' ∨ c = '_') ∧ c ∉ asciiUppercase := by
  intro c hc
  have hl : ∀ e ∈ ((topic.toList.filter
        (fun c => c.isAlphanum || c = ' ' || c = '-' || c = '_')).reverse.dropWhile
        pyWhitespace).reverse,
      (e.isAlphanum || e = ' ' || e = '-' || e = '_') = true := by
    intro e he
    rw [List.mem_reverse] at he
    replace he := mem_of_mem_dropWhile he
    rw [List.mem_reverse] at he
    exact (List.mem_filter.mp he).2
  unfold safeTopicOf at hc
  simp only [] at hc
  rw [toList_mk] at hc
  split_ifs at hc with h
  · rw [List.mem_reverse] at hc
    replace hc := mem_of_mem_dropWhile hc
    rw [List.mem_reverse] at hc
    replace hc := mem_of_mem_take hc
    exact map_lower_repl_chars hl hc
  · exact map_lower_repl_chars hl hc

lemma safeTopicOf_length_le (topic : String) : (safeTopicOf topic).length ≤ 50 := by
  unfold safeTopicOf
  simp only []
  show (List.length _) ≤ 50
  split_ifs with h
  · rw [List.length_reverse]
    calc (List.dropWhile _ _).length
        ≤ _ := List.Sublist.length_le (List.dropWhile_sublist _)
      _ = _ := List.length_reverse _
      _ ≤ 50 := by rw [List.length_take]; omega
  · omega

/-- Claim C9: for every topic, the derived filename stem is the safe topic
part (at most 50 characters) joined to the timestamp; every character of the
stem is alphanumeric, a hyphen, or an underscore (spaces became
underscores); the stem contains no uppercase ASCII letter, ends with the
timestamp, and is at most 100 characters long.  The timestamp is
`strftime("%Y%m%d_%H%M%S")` output: 15 characters, digits and one
underscore. -/
theorem localFileStem_safe (topic ts : String) (hlen : ts.length = 15)
    (hchars : ∀ c ∈ ts.toList, c.isDigit = true ∨ c = '_') :
    localFileStem topic ts = safeTopicOf topic ++ "_" ++ ts
    ∧ (safeTopicOf topic).length ≤ 50
    ∧ (localFileStem topic ts).length ≤ 100
    ∧ (∀ c ∈ (localFileStem topic ts).toList,
        (c.isAlphanum = true ∨ c = '-' ∨ c = '_') ∧ c ∉ asciiUppercase)
    ∧ ∃ pre, localFileStem topic ts = pre ++ ts := by
  have h50 := safeTopicOf_length_le topic
  have hstemlen : (safeTopicOf topic ++ "_" ++ ts).length ≤ 100 := by
    rw [String.length_append, String.length_append, hlen]
    have h1 : ("_" : String).length = 1 := rfl
    omega
  have heq : localFileStem topic ts = safeTopicOf topic ++ "_" ++ ts := by
    unfold localFileStem
    simp only []
    rw [if_neg (by omega)]
  refine ⟨heq, h50, heq ▸ hstemlen, ?_, ⟨safeTopicOf topic ++ "_", heq⟩⟩
  intro c hc
  rw [heq] at hc
  have hsplit : (safeTopicOf topic ++ "_" ++ ts).toList
      = (safeTopicOf topic).toList ++ ('_' :: ts.toList) := by
    show (safeTopicOf topic ++ "_" ++ ts).data = (safeTopicOf topic).data ++ ('_' :: ts.data)
    rw [String.data_append, String.data_append, List.append_assoc]
    rfl
  rw [hsplit] at hc
  rcases List.mem_append.mp hc with h | h
  · exact safeTopicOf_chars topic c h
  · rcases List.mem_cons.mp h with rfl | h
    · exact ⟨Or.inr (Or.inr rfl), by decide⟩
    · rcases hchars c h with hd | rfl
      · exact ⟨Or.inl (alphanum_of_digit hd), digit_notMem_upper hd⟩
      · exact ⟨Or.inr (Or.inr rfl), by decide⟩

/-- Witness for C9: the spec's example topic `"AI & Robots!!"`. -/
theorem localFileStem_safe_witness :
    localFileStem "AI & Robots!!" "20250101_120000"
        = safeTopicOf "AI & Robots!!" ++ "_" ++ "20250101_120000"
    ∧ (safeTopicOf "AI & Robots!!").length ≤ 50
    ∧ (localFileStem "AI & Robots!!" "20250101_120000").length ≤ 100
    ∧ (∀ c ∈ (localFileStem "AI & Robots!!" "20250101_120000").toList,
        (c.isAlphanum = true ∨ c = '-' ∨ c = '_') ∧ c ∉ asciiUppercase)
    ∧ ∃ pre, localFileStem "AI & Robots!!" "20250101_120000" = pre ++ "20250101_120000" :=
  localFileStem_safe "AI & Robots!!" "20250101_120000" (by decide) (by decide)

end ContentFlux
